import Mathlib

/-!
Shallow embedding of the shift-schedule ("Escala") engine of the
hospital-plataforma repository (src/app.py, src/models.py), and proofs of
the spec claims about it.

Calendar arithmetic models Python's `datetime.date`:
`toordinal` is the proleptic-Gregorian ordinal (0001-01-01 ↦ 1),
`pyWeekday` is `date.weekday()` (Monday = 0), and timestamps (`datetime`
values) are modelled as minutes, `ordinal * 1440 + hour * 60 + minute`.

Python string operations used by the code (`str.strip`, `str.upper`,
`str.split("-")`, the `int(...)` constructor) are modelled over `List Char`;
only their ASCII behaviour is modelled (the policy strings, form fields and
date strings the engine handles are ASCII), and Python 3's underscore digit
grouping for `int` is not modelled.
-/

namespace Escala

/-! ## Python string primitives -/

/-- Whitespace stripped by Python's `str.strip()` (ASCII part). -/
def isPySpace (c : Char) : Bool :=
  c = ' ' || c = '\t' || c = '\n' || c = '\x0d' || c = '\x0b' || c = '\x0c'

def stripList (l : List Char) : List Char :=
  ((l.dropWhile isPySpace).reverse.dropWhile isPySpace).reverse

/-- Python `str.strip()`. -/
def pyStrip (s : String) : String := ⟨stripList s.data⟩

/-- Python `str.upper()` (ASCII). -/
def pyUpper (s : String) : String := ⟨s.data.map Char.toUpper⟩

def digitsVal (l : List Char) : Nat :=
  l.foldl (fun n c => n * 10 + (c.toNat - '0'.toNat)) 0

/-- Python `int(s)` on a string: optional sign after stripping whitespace,
then decimal digits; `none` models the raised `ValueError`. -/
def pyInt? (s : String) : Option Int :=
  match stripList s.data with
  | '-' :: rest =>
      if rest ≠ [] ∧ rest.all Char.isDigit then some (-(digitsVal rest : Int)) else none
  | '+' :: rest =>
      if rest ≠ [] ∧ rest.all Char.isDigit then some (digitsVal rest : Int) else none
  | t => if t ≠ [] ∧ t.all Char.isDigit then some (digitsVal t : Int) else none

def splitDashAux : List Char → List Char → List (List Char)
  | [], acc => [acc.reverse]
  | c :: rest, acc =>
      if c = '-' then acc.reverse :: splitDashAux rest []
      else splitDashAux rest (c :: acc)

/-- Python `s.split("-")`. -/
def pySplitDash (s : String) : List String :=
  (splitDashAux s.data []).map String.mk

/-- Python `x or default` for an optional string (`None` and `""` are falsy). -/
def pyOrStr (v : Option String) (dflt : String) : String :=
  match v with
  | none => dflt
  | some s => if s = "" then dflt else s

/-- Python `int(request.form.get(k))`: raises (`none`) when the field is
missing (`TypeError`) or not an integer literal (`ValueError`). -/
def pyFormInt (v : Option String) : Option Int :=
  v.bind pyInt?

/-! ## Calendar model (Python `datetime.date` / `calendar`) -/

/-- Python `calendar.isleap` / the Gregorian leap-year rule used by
`calendar.monthrange`. -/
def isLeap (y : Nat) : Bool :=
  (y % 4 == 0 && y % 100 != 0) || (y % 400 == 0)

/-- `calendar.monthrange(y, m)[1]`: number of days in month `m` of year `y`
(meaningful for `1 ≤ m ≤ 12`). -/
def daysInMonth (y m : Nat) : Nat :=
  if m = 2 then (if isLeap y then 29 else 28)
  else if m = 4 ∨ m = 6 ∨ m = 9 ∨ m = 11 then 30
  else 31

/-- Proleptic-Gregorian ordinal of a calendar date, as Python's
`date(y, m, d).toordinal()` (so `toordinal 1 1 1 = 1`).  Standard
days-from-civil computation; meaningful for valid dates. -/
def toordinal (y m d : Nat) : Int :=
  let y2 := if m ≤ 2 then y - 1 else y
  let era := y2 / 400
  let yoe := y2 % 400
  let mp := (m + 9) % 12
  let doy := (153 * mp + 2) / 5 + (d - 1)
  let doe := yoe * 365 + yoe / 4 - yoe / 100 + doy
  ((era * 146097 + doe : Nat) : Int) - 305

/-- Python `date.weekday()`: Monday = 0 … Sunday = 6. -/
def pyWeekday (y m d : Nat) : Int :=
  (toordinal y m d + 6) % 7

/-- A Python `datetime.date` value (validated on construction). -/
structure PyDate where
  year : Nat
  month : Nat
  day : Nat
deriving DecidableEq

/-- The validity check performed by the `date(y, m, d)` constructor
(`ValueError` is raised exactly when this is false).  The day is an `Int`
because callers pass raw `int(...)` form input. -/
def dateValid (y m : Nat) (d : Int) : Bool :=
  1 ≤ y && y ≤ 9999 && 1 ≤ m && m ≤ 12 && 1 ≤ d && d ≤ (daysInMonth y m : Int)

/-- Minutes timestamp of `datetime.combine(d, time(hh, mi))`. -/
def mkDT (d : PyDate) (hh mi : Nat) : Int :=
  toordinal d.year d.month d.day * 1440 + hh * 60 + mi

/-! ## Data model (src/models.py) -/

/-- `Funcionario` (src/models.py): the columns the schedule engine reads.
`escala_tipo` is declared non-nullable with default `"SEG_SEX"`, but the
code still guards with `or "SEG_SEX"`, so it is modelled as optional. -/
structure Funcionario where
  id : Int
  nome : String
  status : String
  setor : Option String
  escala_tipo : Option String
  plantao_base : Option String
deriving DecidableEq

/-- `EscalaMes` (src/models.py): one generation batch per
`(ano, mes, setor)` key. -/
structure EscalaMes where
  id : Int
  ano : Int
  mes : Int
  setor : Option String
  criado_por_id : Option Int
deriving DecidableEq

/-- `EscalaItem` (src/models.py): one shift entry. -/
structure EscalaItem where
  escala_mes_id : Int
  funcionario_id : Int
  inicio : Int
  fim : Int
  tipo : String
  observacao : Option String
deriving DecidableEq

/-- The persistent store visible to the engine: the `funcionario`,
`escala_mes` and `escala_item` tables, plus the autoincrement counter for
`escala_mes.id`.  Lists are in rowid (insertion) order, which is the order
an unordered SQL query returns rows in. -/
structure DB where
  funcionarios : List Funcionario
  escalas : List EscalaMes
  itens : List EscalaItem
  nextEscalaMesId : Int
deriving DecidableEq

/-! ## Helpers (src/app.py lines 1077–1087) -/

/-- `parse_date_yyyy_mm_dd` (src/app.py:1077): split on `"-"`, convert the
three parts with `int`, build a `date`; any failure (wrong part count,
non-integer part, out-of-range date) returns `None`. -/
def parse_date_yyyy_mm_dd (s : String) : Option PyDate :=
  match pySplitDash s with
  | [ys, ms, ds] =>
      match pyInt? ys, pyInt? ms, pyInt? ds with
      | some y, some m, some d =>
          if 0 ≤ y ∧ 0 ≤ m ∧ dateValid y.toNat m.toNat d then
            some ⟨y.toNat, m.toNat, d.toNat⟩
          else none
      | _, _, _ => none
  | _ => none

/-- `month_range` (src/app.py:1084) calls `date(ano, mes, 1)`, which raises
`ValueError` unless this holds. -/
def monthRangeValid (ano mes : Int) : Bool :=
  1 ≤ ano && ano ≤ 9999 && 1 ≤ mes && mes ≤ 12

/-! ## Month materializer `generate_items_for_funcionario`
(src/app.py:1089–1162) -/

/-- The delete filter at src/app.py:1097: rows of the
`(escala_mes_id, funcionario_id)` pair. -/
def pairMatch (emId funcId : Int) (it : EscalaItem) : Bool :=
  it.escala_mes_id == emId && it.funcionario_id == funcId

/-- `(func.escala_tipo or "SEG_SEX").strip().upper()` plus the
`DIURNO`/`DIARIO` legacy fallback (src/app.py:1102–1106). -/
def normTipo (func : Funcionario) : String :=
  let et := pyUpper (pyStrip (pyOrStr func.escala_tipo "SEG_SEX"))
  if et = "DIURNO" ∨ et = "DIARIO" then "SEG_SEX" else et

/-- `parse_date_yyyy_mm_dd(func.plantao_base) if func.plantao_base else None`
(src/app.py:1132). -/
def basePlantao (func : Funcionario) : Option PyDate :=
  match func.plantao_base with
  | none => none
  | some s => if s = "" then none else parse_date_yyyy_mm_dd s

/-- The days `1 … daysInMonth` the `while d <= fim_mes` loop visits. -/
def monthDays (ano mes : Nat) : List Nat :=
  (List.range (daysInMonth ano mes)).map (· + 1)

/-- One day of the `SEG_SEX` branch (src/app.py:1108–1128): weekday
(Mon–Fri) → `EXPEDIENTE` 08:00–17:00, weekend → `FOLGA` 00:00–23:59. -/
def segSexItem (emId funcId : Int) (ano mes dia : Nat) : EscalaItem :=
  if pyWeekday ano mes dia ≤ 4 then
    ⟨emId, funcId, mkDT ⟨ano, mes, dia⟩ 8 0, mkDT ⟨ano, mes, dia⟩ 17 0,
     "EXPEDIENTE", none⟩
  else
    ⟨emId, funcId, mkDT ⟨ano, mes, dia⟩ 0 0, mkDT ⟨ano, mes, dia⟩ 23 59,
     "FOLGA", none⟩

/-- One day of the `PLANTONISTA_24_96` branch (src/app.py:1138–1159):
`delta = (d - base).days`; duty iff `delta ≥ 0` and `delta % 5 == 0`,
then `PLANTAO_24H` 07:00 → +24h, else `FOLGA` 00:00–23:59. -/
def plantaoItem (emId funcId : Int) (base : PyDate) (ano mes dia : Nat) :
    EscalaItem :=
  let delta : Int := toordinal ano mes dia - toordinal base.year base.month base.day
  if 0 ≤ delta ∧ delta % 5 = 0 then
    ⟨emId, funcId, mkDT ⟨ano, mes, dia⟩ 7 0, mkDT ⟨ano, mes, dia⟩ 7 0 + 24 * 60,
     "PLANTAO_24H", none⟩
  else
    ⟨emId, funcId, mkDT ⟨ano, mes, dia⟩ 0 0, mkDT ⟨ano, mes, dia⟩ 23 59,
     "FOLGA", none⟩

/-- Body of `generate_items_for_funcionario` after the `month_range` call
succeeded: delete the pair's rows, then regenerate per policy; rows are
appended in day order at the end of the table. -/
def genBody (func : Funcionario) (em : EscalaMes) (ano mes : Nat)
    (itens : List EscalaItem) : List EscalaItem :=
  let kept := itens.filter fun it => !(pairMatch em.id func.id it)
  let et := normTipo func
  if et = "SEG_SEX" then
    kept ++ (monthDays ano mes).map (segSexItem em.id func.id ano mes)
  else if et = "PLANTONISTA_24_96" then
    match basePlantao func with
    | none => kept
    | some base => kept ++ (monthDays ano mes).map (plantaoItem em.id func.id base ano mes)
  else kept

/-- `generate_items_for_funcionario` (src/app.py:1089): `none` models the
uncaught `ValueError` from `month_range` on an invalid `(ano, mes)` (raised
before the delete, so the table is untouched in that case). -/
def generate_items_for_funcionario (func : Funcionario) (em : EscalaMes)
    (ano mes : Int) (itens : List EscalaItem) : Option (List EscalaItem) :=
  if monthRangeValid ano mes then
    some (genBody func em ano.toNat mes.toNat itens)
  else none

/-! ## Batch generator `admin_escalas_gerar` (src/app.py:1182–1213) -/

inductive GerarResult where
  | redirect (escala_mes_id : Int)
  | serverError (msg : String)
deriving DecidableEq

/-- The `filter_by(ano=…, mes=…, setor=…)` key lookup predicate. -/
def matchKey (ano mes : Int) (setor : Option String) (e : EscalaMes) : Bool :=
  e.ano == ano && e.mes == mes && e.setor == setor

/-- Insertion sort by `nome`, modelling `order_by(Funcionario.nome)`. -/
def insertByNome (f : Funcionario) : List Funcionario → List Funcionario
  | [] => [f]
  | g :: gs => if f.nome ≤ g.nome then f :: g :: gs else g :: insertByNome f gs

def sortByNome (l : List Funcionario) : List Funcionario :=
  l.foldr insertByNome []

/-- `setor_raw = (request.form.get("setor") or "").strip();
setor = setor_raw or None` (src/app.py:1189–1190). -/
def setorOf (form_setor : Option String) : Option String :=
  let setorRaw := pyStrip (pyOrStr form_setor "")
  if setorRaw = "" then none else some setorRaw

/-- The find-or-create of the `EscalaMes` row (src/app.py:1192–1201);
the creation is committed immediately. -/
def findOrCreateEscalaMes (st : DB) (user_id : Option Int) (ano mes : Int)
    (setor : Option String) : DB × EscalaMes :=
  match st.escalas.find? (matchKey ano mes setor) with
  | some em => (st, em)
  | none =>
      let em : EscalaMes := ⟨st.nextEscalaMesId, ano, mes, setor, user_id⟩
      ({ st with escalas := st.escalas ++ [em],
                 nextEscalaMesId := st.nextEscalaMesId + 1 }, em)

/-- The employee selection (src/app.py:1203–1207): active, optionally
filtered by setor, ordered by name. -/
def selectedFuncionarios (st : DB) (setor : Option String) : List Funcionario :=
  let ativos := st.funcionarios.filter fun f => f.status == "Ativo"
  let selecionados :=
    match setor with
    | none => ativos
    | some s => ativos.filter fun f => f.setor == some s
  sortByNome selecionados

/-- `admin_escalas_gerar` (src/app.py:1182): find-or-create the
`EscalaMes` for the key (committing it at once), then materialize every
active (optionally setor-filtered) employee; a `ValueError` inside the
loop aborts before the final commit, so staged item changes are rolled
back while the committed `EscalaMes` creation survives. -/
def admin_escalas_gerar (st : DB) (user_id : Option Int)
    (form_ano form_mes form_setor : Option String) : DB × GerarResult :=
  match pyFormInt form_ano with
  | none => (st, .serverError "ValueError: int(ano)")
  | some ano =>
  match pyFormInt form_mes with
  | none => (st, .serverError "ValueError: int(mes)")
  | some mes =>
  let setor := setorOf form_setor
  let stEm := findOrCreateEscalaMes st user_id ano mes setor
  match (selectedFuncionarios stEm.1 setor).foldlM
      (fun acc f => generate_items_for_funcionario f stEm.2 ano mes acc)
      stEm.1.itens with
  | none => (stEm.1, .serverError "ValueError: month_range")
  | some itens2 => ({ stEm.1 with itens := itens2 }, .redirect stEm.2.id)

/-! ## Day override editor `admin_escala_editar_dia`
(src/app.py:1677–1736) -/

inductive EditResult where
  | ok (tipo label : String)
  | badRequest (error : String)
  | notFound
  | serverError (msg : String)
deriving DecidableEq

/-- The display label computed at src/app.py:1728–1734. -/
def tipoLabel (t : String) : String :=
  if t = "EXPEDIENTE" then "EXP"
  else if t = "FOLGA" then "F"
  else if t = "PLANTAO_24H" then "24H"
  else "-"

/-- The window/type overwrite at src/app.py:1715–1725. -/
def setCanonicalWindow (d : PyDate) (novo : String) (it : EscalaItem) :
    EscalaItem :=
  let it2 :=
    if novo = "EXPEDIENTE" then
      { it with inicio := mkDT d 8 0, fim := mkDT d 17 0 }
    else if novo = "FOLGA" then
      { it with inicio := mkDT d 0 0, fim := mkDT d 23 59 }
    else if novo = "PLANTAO_24H" then
      { it with inicio := mkDT d 7 0, fim := mkDT d 7 0 + 24 * 60 }
    else it
  { it2 with tipo := novo }

/-- The item lookup predicate at src/app.py:1695–1702: same schedule month
and employee, `inicio` within the day's boundary. -/
def inDay (emId funcId : Int) (inicioDia fimDia : Int) (it : EscalaItem) : Bool :=
  it.escala_mes_id == emId && it.funcionario_id == funcId &&
    inicioDia ≤ it.inicio && it.inicio < fimDia

/-- `.first()` plus in-place mutation of the found ORM row: update the
first element satisfying `p`, or `none` if no element does. -/
def updateFirst (p : α → Bool) (f : α → α) : List α → Option (List α)
  | [] => none
  | x :: xs =>
      if p x then some (f x :: xs)
      else (updateFirst p f xs).map (x :: ·)

/-- `admin_escala_editar_dia` (src/app.py:1677): 404 on unknown
`escala_mes_id`; `int(...)` conversions of the form fields (an unhandled
`ValueError`/`TypeError` is a server error with no mutation); the
shift-type validation returning the structured 400; `date(...)`
construction (unhandled `ValueError` on an out-of-range day); then update
the first entry of the pair whose `inicio` falls inside the day, or create
one (provisional FOLGA shell, immediately overwritten) if none exists.
The employee id is never checked against the `funcionario` table. -/
def admin_escala_editar_dia (st : DB) (escala_mes_id : Int)
    (form_func form_dia form_tipo : Option String) : DB × EditResult :=
  match st.escalas.find? (fun e => e.id == escala_mes_id) with
  | none => (st, .notFound)
  | some escala =>
  match pyFormInt form_func with
  | none => (st, .serverError "ValueError: int(funcionario_id)")
  | some fid =>
  match pyFormInt form_dia with
  | none => (st, .serverError "ValueError: int(dia)")
  | some dia =>
  let novo := pyStrip (pyOrStr form_tipo "")
  if novo = "EXPEDIENTE" ∨ novo = "FOLGA" ∨ novo = "PLANTAO_24H" then
    if dateValid escala.ano.toNat escala.mes.toNat dia then
      let d : PyDate := ⟨escala.ano.toNat, escala.mes.toNat, dia.toNat⟩
      let inicioDia := mkDT d 0 0
      let fimDia := inicioDia + 1440
      match updateFirst (inDay escala.id fid inicioDia fimDia)
          (setCanonicalWindow d novo) st.itens with
      | some itens2 => ({ st with itens := itens2 }, .ok novo (tipoLabel novo))
      | none =>
          let fresh : EscalaItem :=
            ⟨escala.id, fid, inicioDia, inicioDia + 60, "FOLGA", none⟩
          ({ st with itens := st.itens ++ [setCanonicalWindow d novo fresh] },
           .ok novo (tipoLabel novo))
    else (st, .serverError "ValueError: date()")
  else (st, .badRequest "Tipo inválido")

/-! ## Basic lemmas about the materializer -/

theorem segSexItem_pair (emId funcId : Int) (ano mes dia : Nat) :
    pairMatch emId funcId (segSexItem emId funcId ano mes dia) = true := by
  unfold segSexItem pairMatch
  split <;> simp

theorem plantaoItem_pair (emId funcId : Int) (base : PyDate) (ano mes dia : Nat) :
    pairMatch emId funcId (plantaoItem emId funcId base ano mes dia) = true := by
  simp only [plantaoItem, pairMatch]
  split <;> simp

theorem filter_pair_map_new (emId funcId : Int) (g : Nat → EscalaItem)
    (hg : ∀ d, pairMatch emId funcId (g d) = true) (l : List Nat) :
    (l.map g).filter (fun it => !(pairMatch emId funcId it)) = [] := by
  apply List.filter_eq_nil_iff.mpr
  intro a ha
  obtain ⟨d, _, rfl⟩ := List.mem_map.mp ha
  simp [hg d]

/-- The kept-rows view of a regeneration: rows outside the
`(escala_mes_id, funcionario_id)` pair are exactly those of the input. -/
theorem genBody_filter_pair (func : Funcionario) (em : EscalaMes) (ano mes : Nat)
    (t : List EscalaItem) :
    (genBody func em ano mes t).filter (fun it => !(pairMatch em.id func.id it))
      = t.filter (fun it => !(pairMatch em.id func.id it)) := by
  have hself : (t.filter (fun it => !(pairMatch em.id func.id it))).filter
      (fun it => !(pairMatch em.id func.id it))
      = t.filter (fun it => !(pairMatch em.id func.id it)) := by
    rw [List.filter_filter]
    simp
  simp only [genBody]
  by_cases h1 : normTipo func = "SEG_SEX"
  · rw [if_pos h1, List.filter_append, hself,
      filter_pair_map_new em.id func.id _ (fun d => segSexItem_pair ..), List.append_nil]
  · rw [if_neg h1]
    by_cases h2 : normTipo func = "PLANTONISTA_24_96"
    · rw [if_pos h2]
      cases hb : basePlantao func with
      | none => exact hself
      | some base =>
          rw [List.filter_append, hself,
            filter_pair_map_new em.id func.id _ (fun d => plantaoItem_pair ..),
            List.append_nil]
    · rw [if_neg h2]
      exact hself

/-- `genBody` only looks at the input table through its kept rows. -/
theorem genBody_congr (func : Funcionario) (em : EscalaMes) (ano mes : Nat)
    (t₁ t₂ : List EscalaItem)
    (h : t₁.filter (fun it => !(pairMatch em.id func.id it))
       = t₂.filter (fun it => !(pairMatch em.id func.id it))) :
    genBody func em ano mes t₁ = genBody func em ano mes t₂ := by
  unfold genBody
  rw [h]

theorem genBody_idem (func : Funcionario) (em : EscalaMes) (ano mes : Nat)
    (t : List EscalaItem) :
    genBody func em ano mes (genBody func em ano mes t) = genBody func em ano mes t :=
  genBody_congr func em ano mes _ t (genBody_filter_pair func em ano mes t)

/-- C1: materializing a month for one employee is idempotent: a second run
with identical inputs reproduces exactly the final table of the first run
(same rows for the `(scheduleMonth, employee)` pair, no duplicates). -/
theorem C1_materializer_idempotent (func : Funcionario) (em : EscalaMes)
    (ano mes : Int) (t t' : List EscalaItem)
    (h : generate_items_for_funcionario func em ano mes t = some t') :
    generate_items_for_funcionario func em ano mes t' = some t' := by
  unfold generate_items_for_funcionario at h ⊢
  split at h
  · cases h
    rw [if_pos ‹_›]
    exact congrArg some (genBody_idem ..)
  · cases h

/-- Witness for C1 at a concrete input: a `SEG_SEX` employee, February 2026. -/
theorem C1_materializer_idempotent_witness :
    generate_items_for_funcionario
        ⟨7, "Ana", "Ativo", none, some "SEG_SEX", none⟩ ⟨1, 2026, 2, none, none⟩
        2026 2
        (genBody ⟨7, "Ana", "Ativo", none, some "SEG_SEX", none⟩
          ⟨1, 2026, 2, none, none⟩ 2026 2 [])
      = some (genBody ⟨7, "Ana", "Ativo", none, some "SEG_SEX", none⟩
          ⟨1, 2026, 2, none, none⟩ 2026 2 []) :=
  C1_materializer_idempotent _ _ 2026 2 [] _ (by decide)

/-! ## Dead-policy materialization (missing anchor / unknown policy) -/

/-- When the policy produces no entries (rotating policy without a usable
anchor, or an unrecognized policy value), `genBody` still deletes the
pair's rows and inserts nothing. -/
theorem genBody_dead (func : Funcionario) (em : EscalaMes) (ano mes : Nat)
    (t : List EscalaItem)
    (hdead : (normTipo func = "PLANTONISTA_24_96" ∧ basePlantao func = none) ∨
             (normTipo func ≠ "SEG_SEX" ∧ normTipo func ≠ "PLANTONISTA_24_96")) :
    genBody func em ano mes t = t.filter (fun it => !(pairMatch em.id func.id it)) := by
  simp only [genBody]
  rcases hdead with ⟨h1, h2⟩ | ⟨h1, h2⟩
  · rw [if_neg (by rw [h1]; decide), if_pos h1, h2]
  · rw [if_neg h1, if_neg h2]

/-- C4: a rotating-policy employee whose anchor is absent or unparseable
yields, for any target month, a successful (non-raising) materialization
with zero entries for that employee. -/
theorem C4_missing_anchor_empty (func : Funcionario) (em : EscalaMes)
    (ano mes : Int) (t : List EscalaItem)
    (hpol : normTipo func = "PLANTONISTA_24_96")
    (hbase : ∀ s, func.plantao_base = some s →
        s = "" ∨ parse_date_yyyy_mm_dd s = none)
    (hvalid : monthRangeValid ano mes = true) :
    ∃ t', generate_items_for_funcionario func em ano mes t = some t' ∧
          t'.countP (pairMatch em.id func.id) = 0 := by
  have hb : basePlantao func = none := by
    unfold basePlantao
    cases hpb : func.plantao_base with
    | none => rfl
    | some s =>
        dsimp only
        by_cases he : s = ""
        · rw [if_pos he]
        · rw [if_neg he]
          rcases hbase s hpb with h | h
          · exact absurd h he
          · exact h
  refine ⟨t.filter (fun it => !(pairMatch em.id func.id it)), ?_, ?_⟩
  · unfold generate_items_for_funcionario
    rw [if_pos hvalid]
    exact congrArg some (genBody_dead func em _ _ t (Or.inl ⟨hpol, hb⟩))
  · rw [List.countP_eq_zero]
    intro a ha
    have := (List.mem_filter.mp ha).2
    simp only [Bool.not_eq_true'] at this
    simp [this]

/-- Witness for C4: an active rotating-policy employee whose anchor string
`"2026-13-01"` does not parse, materialized for March 2026. -/
theorem C4_missing_anchor_empty_witness :
    ∃ t', generate_items_for_funcionario
        ⟨8, "Bia", "Ativo", none, some "PLANTONISTA_24_96", some "2026-13-01"⟩
        ⟨1, 2026, 3, none, none⟩ 2026 3
        [⟨1, 8, 0, 10, "FOLGA", none⟩] = some t' ∧
      t'.countP (pairMatch 1 8) = 0 :=
  C4_missing_anchor_empty _ _ 2026 3 _ (by decide)
    (fun s hs => by cases hs; exact Or.inr (by decide)) (by decide)

/-- C10 (implicit): the materializer deletes the pair's existing rows
before the policy decides anything, so a dead-policy employee (rotating
without anchor, or unknown policy value) ends the run with exactly the
input table minus every prior row of that `(scheduleMonth, employee)`
pair — prior entries are erased, not preserved. -/
theorem C10_dead_policy_erases (func : Funcionario) (em : EscalaMes)
    (ano mes : Int) (t : List EscalaItem)
    (hdead : (normTipo func = "PLANTONISTA_24_96" ∧ basePlantao func = none) ∨
             (normTipo func ≠ "SEG_SEX" ∧ normTipo func ≠ "PLANTONISTA_24_96"))
    (hvalid : monthRangeValid ano mes = true) :
    generate_items_for_funcionario func em ano mes t
      = some (t.filter (fun it => !(pairMatch em.id func.id it))) := by
  unfold generate_items_for_funcionario
  rw [if_pos hvalid]
  exact congrArg some (genBody_dead func em _ _ t hdead)

/-- Witness for C10: an employee with the unrecognized policy `"FERIAS"`
erases their two pre-existing March rows while another employee's row
survives. -/
theorem C10_dead_policy_erases_witness :
    generate_items_for_funcionario
        ⟨8, "Bia", "Ativo", none, some "FERIAS", none⟩
        ⟨1, 2026, 3, none, none⟩ 2026 3
        [⟨1, 8, 0, 10, "FOLGA", none⟩, ⟨1, 7, 0, 10, "FOLGA", none⟩,
         ⟨1, 8, 20, 30, "PLANTAO_24H", none⟩]
      = some [⟨1, 7, 0, 10, "FOLGA", none⟩] :=
  C10_dead_policy_erases _ _ 2026 3 _ (Or.inr (by constructor <;> decide)) (by decide)

/-! ## Calendar facts -/

/-- Within a month the ordinal is day 1's ordinal plus the day offset. -/
theorem toordinal_day (y m d : Nat) (hd : 1 ≤ d) :
    toordinal y m d = toordinal y m 1 + (d : Int) - 1 := by
  simp only [toordinal]
  omega

theorem countP_range_eq_one (n a : Nat) (h : a < n) :
    (List.range n).countP (fun i => i == a) = 1 := by
  induction n with
  | zero => omega
  | succ n ih =>
      rw [List.range_succ, List.countP_append]
      by_cases ha : a = n
      · subst ha
        have h0 : (List.range a).countP (fun i => i == a) = 0 := by
          rw [List.countP_eq_zero]
          intro i hi
          have := List.mem_range.mp hi
          simp
          omega
        simp [h0]
      · have hn := ih (by omega)
        have h1 : (List.countP (fun i => i == a) [n]) = 0 := by
          simp [List.countP_cons]
          omega
        omega

/-! ## C2: SEG_SEX coverage -/

/-- C2: materializing a month for a `SEG_SEX` employee yields one entry
per calendar day — `EXPEDIENTE` 08:00–17:00 on Monday–Friday, `FOLGA`
00:00–23:59 on Saturday/Sunday — and for every day of the month exactly
one entry whose `inicio` lies inside that day. -/
theorem C2_seg_sex_coverage (func : Funcionario) (em : EscalaMes) (ano mes : Nat)
    (t' : List EscalaItem)
    (hpol : normTipo func = "SEG_SEX")
    (hgen : generate_items_for_funcionario func em (ano : Int) (mes : Int) [] = some t') :
    t'.length = daysInMonth ano mes ∧
    (∀ k (hk : k < t'.length),
        t'.get ⟨k, hk⟩ =
          if pyWeekday ano mes (k + 1) ≤ 4 then
            { escala_mes_id := em.id, funcionario_id := func.id,
              inicio := mkDT ⟨ano, mes, k + 1⟩ 8 0,
              fim := mkDT ⟨ano, mes, k + 1⟩ 17 0,
              tipo := "EXPEDIENTE", observacao := none }
          else
            { escala_mes_id := em.id, funcionario_id := func.id,
              inicio := mkDT ⟨ano, mes, k + 1⟩ 0 0,
              fim := mkDT ⟨ano, mes, k + 1⟩ 23 59,
              tipo := "FOLGA", observacao := none }) ∧
    (∀ dia, 1 ≤ dia → dia ≤ daysInMonth ano mes →
        t'.countP (fun it =>
          decide (mkDT ⟨ano, mes, dia⟩ 0 0 ≤ it.inicio) &&
          decide (it.inicio < mkDT ⟨ano, mes, dia⟩ 0 0 + 1440)) = 1) := by
  unfold generate_items_for_funcionario at hgen
  split at hgen
  case isFalse => cases hgen
  case isTrue hv =>
  injection hgen with hgen
  have ht' : t' = (List.range (daysInMonth ano mes)).map
      (fun i => segSexItem em.id func.id ano mes (i + 1)) := by
    rw [← hgen]
    simp only [genBody, Int.toNat_natCast]
    rw [if_pos hpol]
    simp [monthDays, List.map_map]
  subst ht'
  refine ⟨by simp, ?_, ?_⟩
  · intro k hk
    simp only [List.get_eq_getElem, List.getElem_map, List.getElem_range]
    rfl
  · intro dia h1 h2
    rw [List.countP_map]
    rw [List.countP_congr (q := fun i => i == dia - 1) ?_]
    · exact countP_range_eq_one _ _ (by omega)
    · intro i hi
      have hilt := List.mem_range.mp hi
      simp only [Function.comp]
      by_cases hw : pyWeekday ano mes (i + 1) ≤ 4
      · simp only [segSexItem, if_pos hw, mkDT]
        simp only [Bool.and_eq_true, decide_eq_true_eq, beq_iff_eq]
        rw [toordinal_day ano mes (i + 1) (by omega),
            toordinal_day ano mes dia (by omega)]
        omega
      · simp only [segSexItem, if_neg hw, mkDT]
        simp only [Bool.and_eq_true, decide_eq_true_eq, beq_iff_eq]
        rw [toordinal_day ano mes (i + 1) (by omega),
            toordinal_day ano mes dia (by omega)]
        omega

/-- Witness for C2: February 2026 — 28 entries, and exactly one entry
covering February 10. -/
theorem C2_seg_sex_coverage_witness :
    (genBody ⟨7, "Ana", "Ativo", none, some "SEG_SEX", none⟩
        ⟨1, 2026, 2, none, none⟩ 2026 2 []).length = daysInMonth 2026 2 ∧
    (genBody ⟨7, "Ana", "Ativo", none, some "SEG_SEX", none⟩
        ⟨1, 2026, 2, none, none⟩ 2026 2 []).countP (fun it =>
          decide (mkDT ⟨2026, 2, 10⟩ 0 0 ≤ it.inicio) &&
          decide (it.inicio < mkDT ⟨2026, 2, 10⟩ 0 0 + 1440)) = 1 :=
  ⟨(C2_seg_sex_coverage ⟨7, "Ana", "Ativo", none, some "SEG_SEX", none⟩
      ⟨1, 2026, 2, none, none⟩ 2026 2 _ (by decide) (by decide)).1,
   (C2_seg_sex_coverage ⟨7, "Ana", "Ativo", none, some "SEG_SEX", none⟩
      ⟨1, 2026, 2, none, none⟩ 2026 2 _ (by decide) (by decide)).2.2 10
     (by decide) (by decide)⟩

/-! ## C3: rotation cycle -/

/-- C3: for a rotating-policy employee with a parseable anchor, each
in-month day's entry is `PLANTAO_24H` starting 07:00 and ending exactly
24 hours later precisely when the whole-day delta to the anchor is
nonnegative and divisible by 5; every other day is `FOLGA` 00:00–23:59. -/
theorem C3_plantao_cycle (func : Funcionario) (em : EscalaMes) (ano mes : Nat)
    (s : String) (base : PyDate) (t' : List EscalaItem)
    (hpol : normTipo func = "PLANTONISTA_24_96")
    (hpb : func.plantao_base = some s)
    (hparse : parse_date_yyyy_mm_dd s = some base)
    (hgen : generate_items_for_funcionario func em (ano : Int) (mes : Int) [] = some t') :
    t'.length = daysInMonth ano mes ∧
    (∀ k (hk : k < t'.length),
        t'.get ⟨k, hk⟩ =
          if 0 ≤ toordinal ano mes (k + 1) - toordinal base.year base.month base.day ∧
             (toordinal ano mes (k + 1) - toordinal base.year base.month base.day) % 5 = 0 then
            { escala_mes_id := em.id, funcionario_id := func.id,
              inicio := mkDT ⟨ano, mes, k + 1⟩ 7 0,
              fim := mkDT ⟨ano, mes, k + 1⟩ 7 0 + 24 * 60,
              tipo := "PLANTAO_24H", observacao := none }
          else
            { escala_mes_id := em.id, funcionario_id := func.id,
              inicio := mkDT ⟨ano, mes, k + 1⟩ 0 0,
              fim := mkDT ⟨ano, mes, k + 1⟩ 23 59,
              tipo := "FOLGA", observacao := none }) := by
  have hne : s ≠ "" := by
    intro he
    rw [he] at hparse
    have : parse_date_yyyy_mm_dd "" = none := by decide
    rw [this] at hparse
    cases hparse
  have hbase : basePlantao func = some base := by
    unfold basePlantao
    rw [hpb]
    dsimp only
    rw [if_neg hne, hparse]
  unfold generate_items_for_funcionario at hgen
  split at hgen
  case isFalse => cases hgen
  case isTrue hv =>
  injection hgen with hgen
  have ht' : t' = (List.range (daysInMonth ano mes)).map
      (fun i => plantaoItem em.id func.id base ano mes (i + 1)) := by
    rw [← hgen]
    simp only [genBody, Int.toNat_natCast]
    rw [if_neg (by rw [hpol]; decide), if_pos hpol, hbase]
    simp [monthDays, List.map_map]
  subst ht'
  refine ⟨by simp, ?_⟩
  intro k hk
  simp only [List.get_eq_getElem, List.getElem_map, List.getElem_range]
  rfl

/-- Witness for C3: the anchor `2026-01-01` of the spec scenario,
materialized for February 2026 — 28 entries. -/
theorem C3_plantao_cycle_witness :
    (genBody ⟨8, "Bia", "Ativo", none, some "PLANTONISTA_24_96", some "2026-01-01"⟩
        ⟨1, 2026, 2, none, none⟩ 2026 2 []).length = daysInMonth 2026 2 :=
  (C3_plantao_cycle ⟨8, "Bia", "Ativo", none, some "PLANTONISTA_24_96", some "2026-01-01"⟩
    ⟨1, 2026, 2, none, none⟩ 2026 2 "2026-01-01" ⟨2026, 1, 1⟩ _
    (by decide) rfl (by decide) (by decide)).1

/-! ## C5: ScheduleMonth uniqueness under regeneration -/

theorem findOrCreateEscalaMes_escalas (st : DB) (uid : Option Int) (ano mes : Int)
    (setor : Option String) :
    (findOrCreateEscalaMes st uid ano mes setor).1.escalas =
      (match st.escalas.find? (matchKey ano mes setor) with
       | some _ => st.escalas
       | none => st.escalas ++ [⟨st.nextEscalaMesId, ano, mes, setor, uid⟩]) := by
  unfold findOrCreateEscalaMes
  cases st.escalas.find? (matchKey ano mes setor) <;> rfl

/-- The batch generator's only effect on the `escala_mes` table is the
find-or-create step. -/
theorem gerar_escalas (st : DB) (uid : Option Int) (fa fm fs : Option String)
    (ano mes : Int)
    (ha : pyFormInt fa = some ano) (hm : pyFormInt fm = some mes) :
    (admin_escalas_gerar st uid fa fm fs).1.escalas =
      (findOrCreateEscalaMes st uid ano mes (setorOf fs)).1.escalas := by
  unfold admin_escalas_gerar
  rw [ha, hm]
  dsimp only
  split <;> rfl

/-- C5: generating twice for the same `(year, month, setor)` key leaves
the `escala_mes` table of the first run unchanged — the second run finds
and reuses the row — and starting from a state with no row for the key,
one run leaves exactly one row for it. -/
theorem C5_schedule_month_unique (st : DB) (uid : Option Int)
    (fa fm fs : Option String) (ano mes : Int)
    (ha : pyFormInt fa = some ano) (hm : pyFormInt fm = some mes) :
    ((admin_escalas_gerar (admin_escalas_gerar st uid fa fm fs).1 uid fa fm fs).1.escalas
        = (admin_escalas_gerar st uid fa fm fs).1.escalas) ∧
    (st.escalas.countP (matchKey ano mes (setorOf fs)) = 0 →
        (admin_escalas_gerar st uid fa fm fs).1.escalas.countP
          (matchKey ano mes (setorOf fs)) = 1) := by
  have h1 := gerar_escalas st uid fa fm fs ano mes ha hm
  have h2 := gerar_escalas (admin_escalas_gerar st uid fa fm fs).1 uid fa fm fs ano mes ha hm
  rw [findOrCreateEscalaMes_escalas] at h1 h2
  have hkey : matchKey ano mes (setorOf fs)
      (⟨st.nextEscalaMesId, ano, mes, setorOf fs, uid⟩ : EscalaMes) = true := by
    simp [matchKey]
  constructor
  · rw [h2]
    cases hf : st.escalas.find? (matchKey ano mes (setorOf fs)) with
    | some em0 =>
        rw [hf] at h1
        dsimp only at h1
        rw [h1, hf]
    | none =>
        rw [hf] at h1
        dsimp only at h1
        rw [h1, List.find?_append, hf, List.find?_cons_of_pos _ hkey]
        rfl
  · intro hc
    have hf : st.escalas.find? (matchKey ano mes (setorOf fs)) = none :=
      List.find?_eq_none.mpr (by
        intro x hx
        have := List.countP_eq_zero.mp hc x hx
        simpa using this)
    rw [h1, hf]
    dsimp only
    rw [List.countP_append, hc]
    simp [List.countP_cons, hkey]

/-- Witness for C5: generation for `(2026, 3, no setor)` from a store with
no `EscalaMes` rows, run twice. -/
theorem C5_schedule_month_unique_witness :
    ((admin_escalas_gerar
        (admin_escalas_gerar
          (⟨[⟨7, "Ana", "Ativo", none, some "SEG_SEX", none⟩], [], [], 1⟩ : DB)
          (some 1) (some "2026") (some "3") none).1
        (some 1) (some "2026") (some "3") none).1.escalas
      = (admin_escalas_gerar
          (⟨[⟨7, "Ana", "Ativo", none, some "SEG_SEX", none⟩], [], [], 1⟩ : DB)
          (some 1) (some "2026") (some "3") none).1.escalas) ∧
    (admin_escalas_gerar
        (⟨[⟨7, "Ana", "Ativo", none, some "SEG_SEX", none⟩], [], [], 1⟩ : DB)
        (some 1) (some "2026") (some "3") none).1.escalas.countP
      (matchKey 2026 3 (setorOf none)) = 1 :=
  ⟨(C5_schedule_month_unique
      (⟨[⟨7, "Ana", "Ativo", none, some "SEG_SEX", none⟩], [], [], 1⟩ : DB)
      (some 1) (some "2026") (some "3") none 2026 3 (by decide) (by decide)).1,
   (C5_schedule_month_unique
      (⟨[⟨7, "Ana", "Ativo", none, some "SEG_SEX", none⟩], [], [], 1⟩ : DB)
      (some 1) (some "2026") (some "3") none 2026 3 (by decide) (by decide)).2
     (by decide)⟩

/-! ## Day override editor: machinery -/

theorem updateFirst_eq_none {α : Type _} (p : α → Bool) (f : α → α) (l : List α) :
    updateFirst p f l = none ↔ ∀ a ∈ l, p a = false := by
  induction l with
  | nil => simp [updateFirst]
  | cons x xs ih =>
      simp only [updateFirst]
      by_cases hx : p x
      · simp [hx]
      · simp only [if_neg hx, Option.map_eq_none', ih, List.mem_cons]
        constructor
        · intro h a ha
          rcases ha with rfl | ha
          · simpa using hx
          · exact h a ha
        · intro h a ha
          exact h a (Or.inr ha)

theorem updateFirst_eq_some {α : Type _} (p : α → Bool) (f : α → α) :
    ∀ (l l' : List α), updateFirst p f l = some l' →
      ∃ j a, l[j]? = some a ∧ p a = true ∧ l' = l.set j (f a) ∧
        ∀ i, i ≠ j → l'[i]? = l[i]?
  | [], l', h => by cases h
  | x :: xs, l', h => by
      simp only [updateFirst] at h
      by_cases hx : p x
      · rw [if_pos hx] at h
        injection h with h
        refine ⟨0, x, by simp, hx, ?_, ?_⟩
        · rw [← h]
          rfl
        · intro i hi
          rw [← h]
          cases i with
          | zero => exact absurd rfl hi
          | succ k => simp
      · rw [if_neg hx] at h
        cases hu : updateFirst p f xs with
        | none =>
            rw [hu] at h
            cases h
        | some ys =>
            rw [hu] at h
            injection h with h
            dsimp only at h
            obtain ⟨j, a, hja, hpa, hys, hframe⟩ := updateFirst_eq_some p f xs ys hu
            refine ⟨j + 1, a, ?_, hpa, ?_, ?_⟩
            · simpa using hja
            · rw [← h, hys]
              rfl
            · intro i hi
              rw [← h]
              cases i with
              | zero => simp
              | succ k => simpa using hframe k (by omega)

/-- Reduction of the day-override handler on the success path (schedule
month found, both form integers parse, valid shift type, valid day). -/
theorem editar_dia_run (st : DB) (emid : Int) (escala : EscalaMes)
    (ff fd ft : Option String) (fid dia : Int) (novo : String)
    (hesc : st.escalas.find? (fun e => e.id == emid) = some escala)
    (hf : pyFormInt ff = some fid) (hd : pyFormInt fd = some dia)
    (ht : pyStrip (pyOrStr ft "") = novo)
    (hnovo : novo = "EXPEDIENTE" ∨ novo = "FOLGA" ∨ novo = "PLANTAO_24H")
    (hval : dateValid escala.ano.toNat escala.mes.toNat dia = true) :
    admin_escala_editar_dia st emid ff fd ft =
      (match updateFirst
          (inDay escala.id fid (mkDT ⟨escala.ano.toNat, escala.mes.toNat, dia.toNat⟩ 0 0)
            (mkDT ⟨escala.ano.toNat, escala.mes.toNat, dia.toNat⟩ 0 0 + 1440))
          (setCanonicalWindow ⟨escala.ano.toNat, escala.mes.toNat, dia.toNat⟩ novo)
          st.itens with
       | some itens2 => ({ st with itens := itens2 }, .ok novo (tipoLabel novo))
       | none =>
          ({ st with itens := st.itens ++
              [setCanonicalWindow ⟨escala.ano.toNat, escala.mes.toNat, dia.toNat⟩ novo
                ⟨escala.id, fid, mkDT ⟨escala.ano.toNat, escala.mes.toNat, dia.toNat⟩ 0 0,
                 mkDT ⟨escala.ano.toNat, escala.mes.toNat, dia.toNat⟩ 0 0 + 60, "FOLGA", none⟩] },
           .ok novo (tipoLabel novo))) := by
  unfold admin_escala_editar_dia
  rw [hesc, hf, hd]
  dsimp only
  rw [ht, if_pos hnovo, if_pos hval]

theorem setCanonicalWindow_escala_mes_id (d : PyDate) (novo : String) (it : EscalaItem) :
    (setCanonicalWindow d novo it).escala_mes_id = it.escala_mes_id := by
  simp only [setCanonicalWindow]
  split_ifs <;> rfl

theorem setCanonicalWindow_funcionario_id (d : PyDate) (novo : String) (it : EscalaItem) :
    (setCanonicalWindow d novo it).funcionario_id = it.funcionario_id := by
  simp only [setCanonicalWindow]
  split_ifs <;> rfl

theorem setCanonicalWindow_tipo (d : PyDate) (novo : String) (it : EscalaItem) :
    (setCanonicalWindow d novo it).tipo = novo := by
  simp [setCanonicalWindow]

theorem setCanonicalWindow_window (d : PyDate) (novo : String) (it : EscalaItem) :
    (novo = "EXPEDIENTE" →
        (setCanonicalWindow d novo it).inicio = mkDT d 8 0 ∧
        (setCanonicalWindow d novo it).fim = mkDT d 17 0) ∧
    (novo = "FOLGA" →
        (setCanonicalWindow d novo it).inicio = mkDT d 0 0 ∧
        (setCanonicalWindow d novo it).fim = mkDT d 23 59) ∧
    (novo = "PLANTAO_24H" →
        (setCanonicalWindow d novo it).inicio = mkDT d 7 0 ∧
        (setCanonicalWindow d novo it).fim = mkDT d 7 0 + 24 * 60) := by
  refine ⟨?_, ?_, ?_⟩ <;> intro h <;> subst h <;> simp [setCanonicalWindow]

/-! ## C6: canonical window of a day override -/

/-- C6 counterexample: overriding a day to on-duty (`EXPEDIENTE`) persists
the window 08:00–17:00, not the 09:00–17:00 the claim states. -/
theorem C6_on_duty_window_counterexample :
    (admin_escala_editar_dia ⟨[], [⟨1, 2026, 3, none, none⟩], [], 2⟩ 1
        (some "7") (some "10") (some "EXPEDIENTE")).1.itens
      = [⟨1, 7, mkDT ⟨2026, 3, 10⟩ 8 0, mkDT ⟨2026, 3, 10⟩ 17 0, "EXPEDIENTE", none⟩] ∧
    mkDT ⟨2026, 3, 10⟩ 8 0 ≠ mkDT ⟨2026, 3, 10⟩ 9 0 := by
  decide

/-- C6 (amended: the on-duty canonical window is 08:00–17:00, matching the
generator, not 09:00–17:00): a valid day override persists an entry of the
requested type whose window is the canonical one for that type —
08:00–17:00 for `EXPEDIENTE`, 00:00–23:59 for `FOLGA`, 07:00 → +24h for
`PLANTAO_24H` — and reports the applied type with its display label. -/
theorem C6_override_window_corrected (st : DB) (emid : Int) (escala : EscalaMes)
    (ff fd ft : Option String) (fid dia : Int) (novo : String)
    (st' : DB) (res : EditResult)
    (hesc : st.escalas.find? (fun e => e.id == emid) = some escala)
    (hf : pyFormInt ff = some fid) (hd : pyFormInt fd = some dia)
    (ht : pyStrip (pyOrStr ft "") = novo)
    (hnovo : novo = "EXPEDIENTE" ∨ novo = "FOLGA" ∨ novo = "PLANTAO_24H")
    (hval : dateValid escala.ano.toNat escala.mes.toNat dia = true)
    (hrun : admin_escala_editar_dia st emid ff fd ft = (st', res)) :
    res = .ok novo (tipoLabel novo) ∧
    ∃ it ∈ st'.itens,
      it.escala_mes_id = escala.id ∧ it.funcionario_id = fid ∧ it.tipo = novo ∧
      ((novo = "EXPEDIENTE" →
          it.inicio = mkDT ⟨escala.ano.toNat, escala.mes.toNat, dia.toNat⟩ 8 0 ∧
          it.fim = mkDT ⟨escala.ano.toNat, escala.mes.toNat, dia.toNat⟩ 17 0) ∧
       (novo = "FOLGA" →
          it.inicio = mkDT ⟨escala.ano.toNat, escala.mes.toNat, dia.toNat⟩ 0 0 ∧
          it.fim = mkDT ⟨escala.ano.toNat, escala.mes.toNat, dia.toNat⟩ 23 59) ∧
       (novo = "PLANTAO_24H" →
          it.inicio = mkDT ⟨escala.ano.toNat, escala.mes.toNat, dia.toNat⟩ 7 0 ∧
          it.fim = mkDT ⟨escala.ano.toNat, escala.mes.toNat, dia.toNat⟩ 7 0 + 24 * 60)) := by
  rw [editar_dia_run st emid escala ff fd ft fid dia novo hesc hf hd ht hnovo hval] at hrun
  set d : PyDate := ⟨escala.ano.toNat, escala.mes.toNat, dia.toNat⟩ with hdd
  cases hu : updateFirst
      (inDay escala.id fid (mkDT d 0 0) (mkDT d 0 0 + 1440))
      (setCanonicalWindow d novo) st.itens with
  | some itens2 =>
      rw [hu] at hrun
      dsimp only at hrun
      cases hrun
      refine ⟨rfl, ?_⟩
      obtain ⟨j, a, hja, hpa, hset, hframe⟩ := updateFirst_eq_some _ _ _ _ hu
      have hj : j < st.itens.length := (List.getElem?_eq_some.mp hja).1
      have hid : a.escala_mes_id = escala.id ∧ a.funcionario_id = fid := by
        simp only [inDay, Bool.and_eq_true, beq_iff_eq] at hpa
        exact ⟨hpa.1.1.1, hpa.1.1.2⟩
      refine ⟨setCanonicalWindow d novo a, ?_, ?_, ?_,
        setCanonicalWindow_tipo .., setCanonicalWindow_window ..⟩
      · dsimp only
        rw [hset]
        have hlen : j < (st.itens.set j (setCanonicalWindow d novo a)).length := by
          simpa using hj
        have hget : (st.itens.set j (setCanonicalWindow d novo a))[j] =
            setCanonicalWindow d novo a := List.getElem_set_self hlen
        have hmem := List.getElem_mem hlen
        rwa [hget] at hmem
      · rw [setCanonicalWindow_escala_mes_id]
        exact hid.1
      · rw [setCanonicalWindow_funcionario_id]
        exact hid.2
  | none =>
      rw [hu] at hrun
      dsimp only at hrun
      cases hrun
      refine ⟨rfl, ?_⟩
      refine ⟨setCanonicalWindow d novo
        ⟨escala.id, fid, mkDT d 0 0, mkDT d 0 0 + 60, "FOLGA", none⟩, ?_, ?_, ?_,
        setCanonicalWindow_tipo .., setCanonicalWindow_window ..⟩
      · simp
      · rw [setCanonicalWindow_escala_mes_id]
      · rw [setCanonicalWindow_funcionario_id]

/-- Witness for the amended C6: overriding March 10 2026 to `PLANTAO_24H`
on an empty table persists the 07:00 → +24h window. -/
theorem C6_override_window_corrected_witness :
    EditResult.ok "PLANTAO_24H" "24H" = .ok "PLANTAO_24H" (tipoLabel "PLANTAO_24H") ∧
    ∃ it ∈ [(⟨1, 7, mkDT ⟨2026, 3, 10⟩ 7 0, mkDT ⟨2026, 3, 10⟩ 7 0 + 24 * 60,
        "PLANTAO_24H", none⟩ : EscalaItem)],
      it.escala_mes_id = 1 ∧ it.funcionario_id = 7 ∧ it.tipo = "PLANTAO_24H" ∧
      (("PLANTAO_24H" = "EXPEDIENTE" →
          it.inicio = mkDT ⟨2026, 3, 10⟩ 8 0 ∧ it.fim = mkDT ⟨2026, 3, 10⟩ 17 0) ∧
       ("PLANTAO_24H" = "FOLGA" →
          it.inicio = mkDT ⟨2026, 3, 10⟩ 0 0 ∧ it.fim = mkDT ⟨2026, 3, 10⟩ 23 59) ∧
       ("PLANTAO_24H" = "PLANTAO_24H" →
          it.inicio = mkDT ⟨2026, 3, 10⟩ 7 0 ∧
          it.fim = mkDT ⟨2026, 3, 10⟩ 7 0 + 24 * 60)) :=
  C6_override_window_corrected ⟨[], [⟨1, 2026, 3, none, none⟩], [], 2⟩ 1
    ⟨1, 2026, 3, none, none⟩ (some "7") (some "10") (some "PLANTAO_24H") 7 10
    "PLANTAO_24H"
    ⟨[], [⟨1, 2026, 3, none, none⟩],
     [⟨1, 7, mkDT ⟨2026, 3, 10⟩ 7 0, mkDT ⟨2026, 3, 10⟩ 7 0 + 24 * 60,
       "PLANTAO_24H", none⟩], 2⟩
    (.ok "PLANTAO_24H" "24H") (by decide) (by decide) (by decide) (by decide)
    (by decide) (by decide) (by decide)

/-! ## C9: override isolation -/

/-- C9: a valid day override touches at most one position of the
`escala_item` table: either some index `j` held an entry of the pair whose
`inicio` falls inside the target day (then only index `j` changes and the
length is preserved), or no entry did (then one entry is appended and all
existing positions are untouched).  Every other row — other days of the
same employee, and all rows of other employees — is unchanged. -/
theorem C9_override_isolation (st : DB) (emid : Int) (escala : EscalaMes)
    (ff fd ft : Option String) (fid dia : Int) (novo : String)
    (st' : DB) (res : EditResult)
    (hesc : st.escalas.find? (fun e => e.id == emid) = some escala)
    (hf : pyFormInt ff = some fid) (hd : pyFormInt fd = some dia)
    (ht : pyStrip (pyOrStr ft "") = novo)
    (hnovo : novo = "EXPEDIENTE" ∨ novo = "FOLGA" ∨ novo = "PLANTAO_24H")
    (hval : dateValid escala.ano.toNat escala.mes.toNat dia = true)
    (hrun : admin_escala_editar_dia st emid ff fd ft = (st', res)) :
    res = .ok novo (tipoLabel novo) ∧
    ∃ j, (∀ i, i ≠ j → st'.itens[i]? = st.itens[i]?) ∧
      ((j < st.itens.length ∧ st'.itens.length = st.itens.length ∧
        ∃ a, st.itens[j]? = some a ∧
          inDay escala.id fid (mkDT ⟨escala.ano.toNat, escala.mes.toNat, dia.toNat⟩ 0 0)
            (mkDT ⟨escala.ano.toNat, escala.mes.toNat, dia.toNat⟩ 0 0 + 1440) a = true) ∨
       (j = st.itens.length ∧ st'.itens.length = st.itens.length + 1 ∧
        ∀ a ∈ st.itens,
          inDay escala.id fid (mkDT ⟨escala.ano.toNat, escala.mes.toNat, dia.toNat⟩ 0 0)
            (mkDT ⟨escala.ano.toNat, escala.mes.toNat, dia.toNat⟩ 0 0 + 1440) a = false)) := by
  rw [editar_dia_run st emid escala ff fd ft fid dia novo hesc hf hd ht hnovo hval] at hrun
  set d : PyDate := ⟨escala.ano.toNat, escala.mes.toNat, dia.toNat⟩ with hdd
  cases hu : updateFirst
      (inDay escala.id fid (mkDT d 0 0) (mkDT d 0 0 + 1440))
      (setCanonicalWindow d novo) st.itens with
  | some itens2 =>
      rw [hu] at hrun
      dsimp only at hrun
      cases hrun
      refine ⟨rfl, ?_⟩
      obtain ⟨j, a, hja, hpa, hset, hframe⟩ := updateFirst_eq_some _ _ _ _ hu
      have hj : j < st.itens.length := (List.getElem?_eq_some.mp hja).1
      exact ⟨j, hframe, Or.inl ⟨hj, by rw [hset]; simp, a, hja, hpa⟩⟩
  | none =>
      rw [hu] at hrun
      dsimp only at hrun
      cases hrun
      refine ⟨rfl, st.itens.length, ?_, Or.inr ⟨rfl, by simp, ?_⟩⟩
      · intro i hi
        dsimp only
        by_cases hlt : i < st.itens.length
        · rw [List.getElem?_append_left hlt]
        · have h1 : st.itens.length ≤ i := by omega
          have h2 : (st.itens ++ [setCanonicalWindow d novo
              ⟨escala.id, fid, mkDT d 0 0, mkDT d 0 0 + 60, "FOLGA", none⟩]).length ≤ i := by
            simp
            omega
          rw [List.getElem?_eq_none h2, List.getElem?_eq_none h1]
      · exact fun a ha => (updateFirst_eq_none _ _ _).mp hu a ha

/-- Witness for C9: overriding March 10 2026 to `FOLGA` on a table holding
that employee's March 10 entry plus another employee's row. -/
theorem C9_override_isolation_witness :
    EditResult.ok "FOLGA" "F" = .ok "FOLGA" (tipoLabel "FOLGA") ∧
    ∃ j, (∀ i, i ≠ j →
        ([⟨1, 7, mkDT ⟨2026, 3, 10⟩ 0 0, mkDT ⟨2026, 3, 10⟩ 23 59, "FOLGA", none⟩,
          ⟨1, 9, mkDT ⟨2026, 3, 10⟩ 8 0, mkDT ⟨2026, 3, 10⟩ 17 0, "EXPEDIENTE", none⟩]
          : List EscalaItem)[i]?
          = ([⟨1, 7, mkDT ⟨2026, 3, 10⟩ 8 0, mkDT ⟨2026, 3, 10⟩ 17 0, "EXPEDIENTE", none⟩,
              ⟨1, 9, mkDT ⟨2026, 3, 10⟩ 8 0, mkDT ⟨2026, 3, 10⟩ 17 0, "EXPEDIENTE", none⟩]
              : List EscalaItem)[i]?) ∧
      ((j < 2 ∧ (2 : Nat) = 2 ∧
        ∃ a, ([⟨1, 7, mkDT ⟨2026, 3, 10⟩ 8 0, mkDT ⟨2026, 3, 10⟩ 17 0, "EXPEDIENTE", none⟩,
               ⟨1, 9, mkDT ⟨2026, 3, 10⟩ 8 0, mkDT ⟨2026, 3, 10⟩ 17 0, "EXPEDIENTE", none⟩]
               : List EscalaItem)[j]? = some a ∧
          inDay 1 7 (mkDT ⟨2026, 3, 10⟩ 0 0) (mkDT ⟨2026, 3, 10⟩ 0 0 + 1440) a = true) ∨
       (j = 2 ∧ (2 : Nat) = 2 + 1 ∧
        ∀ a ∈ ([⟨1, 7, mkDT ⟨2026, 3, 10⟩ 8 0, mkDT ⟨2026, 3, 10⟩ 17 0, "EXPEDIENTE", none⟩,
                ⟨1, 9, mkDT ⟨2026, 3, 10⟩ 8 0, mkDT ⟨2026, 3, 10⟩ 17 0, "EXPEDIENTE", none⟩]
                : List EscalaItem),
          inDay 1 7 (mkDT ⟨2026, 3, 10⟩ 0 0) (mkDT ⟨2026, 3, 10⟩ 0 0 + 1440) a = false)) :=
  C9_override_isolation
    ⟨[], [⟨1, 2026, 3, none, none⟩],
     [⟨1, 7, mkDT ⟨2026, 3, 10⟩ 8 0, mkDT ⟨2026, 3, 10⟩ 17 0, "EXPEDIENTE", none⟩,
      ⟨1, 9, mkDT ⟨2026, 3, 10⟩ 8 0, mkDT ⟨2026, 3, 10⟩ 17 0, "EXPEDIENTE", none⟩], 2⟩ 1
    ⟨1, 2026, 3, none, none⟩ (some "7") (some "10") (some "FOLGA") 7 10 "FOLGA"
    ⟨[], [⟨1, 2026, 3, none, none⟩],
     [⟨1, 7, mkDT ⟨2026, 3, 10⟩ 0 0, mkDT ⟨2026, 3, 10⟩ 23 59, "FOLGA", none⟩,
      ⟨1, 9, mkDT ⟨2026, 3, 10⟩ 8 0, mkDT ⟨2026, 3, 10⟩ 17 0, "EXPEDIENTE", none⟩], 2⟩
    (.ok "FOLGA" "F") (by decide) (by decide) (by decide) (by decide)
    (by decide) (by decide) (by decide)

/-! ## C7: rejection of invalid override input -/

/-- C7 counterexample: a syntactically valid but out-of-range day
(February 30) with a valid shift type is not rejected with the structured
invalid-input response — the `date()` constructor raises an unhandled
`ValueError` (a server error), although no mutation happens. -/
theorem C7_malformed_day_counterexample :
    admin_escala_editar_dia ⟨[], [⟨1, 2026, 2, none, none⟩], [], 2⟩ 1
        (some "7") (some "30") (some "EXPEDIENTE")
      = (⟨[], [⟨1, 2026, 2, none, none⟩], [], 2⟩,
         .serverError "ValueError: date()") := by
  decide

/-- C7 (amended: only an invalid shift type gets the structured rejection;
a malformed or out-of-range day/form integer raises an unhandled error —
in every rejection case, structured or not, no mutation occurs):
(1) whenever the handler does not answer `ok`, the store is unchanged;
(2) with the schedule month found and both form integers parsing, a shift
type outside \x7bEXPEDIENTE, FOLGA, PLANTAO_24H\x7d is rejected with the
structured 400 response and an unchanged store. -/
theorem C7_invalid_input_corrected (st : DB) (emid : Int) (ff fd ft : Option String) :
    (∀ st' r, admin_escala_editar_dia st emid ff fd ft = (st', r) →
        (∀ tipo label, r ≠ .ok tipo label) → st' = st) ∧
    (∀ escala, st.escalas.find? (fun e => e.id == emid) = some escala →
        (pyFormInt ff).isSome → (pyFormInt fd).isSome →
        pyStrip (pyOrStr ft "") ≠ "EXPEDIENTE" →
        pyStrip (pyOrStr ft "") ≠ "FOLGA" →
        pyStrip (pyOrStr ft "") ≠ "PLANTAO_24H" →
        admin_escala_editar_dia st emid ff fd ft
          = (st, .badRequest "Tipo inválido")) := by
  constructor
  · intro st' r hrun hnok
    unfold admin_escala_editar_dia at hrun
    cases hesc : st.escalas.find? (fun e => e.id == emid) with
    | none =>
        rw [hesc] at hrun
        cases hrun
        rfl
    | some escala =>
        rw [hesc] at hrun
        dsimp only at hrun
        cases hf : pyFormInt ff with
        | none =>
            rw [hf] at hrun
            cases hrun
            rfl
        | some fid =>
            rw [hf] at hrun
            dsimp only at hrun
            cases hd : pyFormInt fd with
            | none =>
                rw [hd] at hrun
                cases hrun
                rfl
            | some dia =>
                rw [hd] at hrun
                dsimp only at hrun
                by_cases htv : pyStrip (pyOrStr ft "") = "EXPEDIENTE" ∨
                    pyStrip (pyOrStr ft "") = "FOLGA" ∨
                    pyStrip (pyOrStr ft "") = "PLANTAO_24H"
                · rw [if_pos htv] at hrun
                  by_cases hval : dateValid escala.ano.toNat escala.mes.toNat dia = true
                  · rw [if_pos hval] at hrun
                    cases hu : updateFirst
                        (inDay escala.id fid
                          (mkDT ⟨escala.ano.toNat, escala.mes.toNat, dia.toNat⟩ 0 0)
                          (mkDT ⟨escala.ano.toNat, escala.mes.toNat, dia.toNat⟩ 0 0 + 1440))
                        (setCanonicalWindow ⟨escala.ano.toNat, escala.mes.toNat, dia.toNat⟩
                          (pyStrip (pyOrStr ft ""))) st.itens with
                    | some itens2 =>
                        rw [hu] at hrun
                        dsimp only at hrun
                        cases hrun
                        exact absurd rfl (hnok _ _)
                    | none =>
                        rw [hu] at hrun
                        dsimp only at hrun
                        cases hrun
                        exact absurd rfl (hnok _ _)
                  · rw [if_neg hval] at hrun
                    cases hrun
                    rfl
                · rw [if_neg htv] at hrun
                  cases hrun
                  rfl
  · intro escala hesc hf hd h1 h2 h3
    unfold admin_escala_editar_dia
    rw [hesc]
    dsimp only
    obtain ⟨fid, hf'⟩ := Option.isSome_iff_exists.mp hf
    obtain ⟨dia, hd'⟩ := Option.isSome_iff_exists.mp hd
    rw [hf', hd']
    dsimp only
    rw [if_neg]
    intro hcon
    rcases hcon with h | h | h
    · exact h1 h
    · exact h2 h
    · exact h3 h

/-- Witness for the amended C7: the unknown shift type `"FERIAS"` on a
valid request gets the structured rejection with no state change. -/
theorem C7_invalid_input_corrected_witness :
    admin_escala_editar_dia ⟨[], [⟨1, 2026, 3, none, none⟩], [], 2⟩ 1
        (some "7") (some "10") (some "FERIAS")
      = (⟨[], [⟨1, 2026, 3, none, none⟩], [], 2⟩, .badRequest "Tipo inválido") :=
  (C7_invalid_input_corrected ⟨[], [⟨1, 2026, 3, none, none⟩], [], 2⟩ 1
      (some "7") (some "10") (some "FERIAS")).2
    ⟨1, 2026, 3, none, none⟩ (by decide) (by decide) (by decide)
    (by decide) (by decide) (by decide)

/-! ## C8: referential lookups -/

/-- C8 counterexample: the employee table is empty (no employee 99 exists),
yet the day override happily creates an `EscalaItem` for employee 99 and
answers `ok` — not a not-found rejection. -/
theorem C8_unknown_employee_counterexample :
    admin_escala_editar_dia ⟨[], [⟨1, 2026, 3, none, none⟩], [], 2⟩ 1
        (some "99") (some "10") (some "FOLGA")
      = (⟨[], [⟨1, 2026, 3, none, none⟩],
          [⟨1, 99, mkDT ⟨2026, 3, 10⟩ 0 0, mkDT ⟨2026, 3, 10⟩ 23 59, "FOLGA", none⟩], 2⟩,
         .ok "FOLGA" "F") := by
  decide

/-- C8 (amended: an unknown schedule-month id is surfaced as not-found
with no mutation, but the employee id is never validated — the day
override's behaviour is independent of the employee table, so an unknown
employee id silently creates an entry): (1) unknown `escala_mes_id` →
`notFound`, store unchanged; (2) the handler's result is the same for any
contents of the `funcionario` table. -/
theorem C8_referential_corrected (st : DB) (emid : Int) (ff fd ft : Option String) :
    (st.escalas.find? (fun e => e.id == emid) = none →
        admin_escala_editar_dia st emid ff fd ft = (st, .notFound)) ∧
    (∀ l : List Funcionario,
        admin_escala_editar_dia { st with funcionarios := l } emid ff fd ft
          = ({ (admin_escala_editar_dia st emid ff fd ft).1 with funcionarios := l },
             (admin_escala_editar_dia st emid ff fd ft).2)) := by
  constructor
  · intro h
    unfold admin_escala_editar_dia
    rw [h]
  · intro l
    unfold admin_escala_editar_dia
    dsimp only
    cases hesc : st.escalas.find? (fun e => e.id == emid) with
    | none => rfl
    | some escala =>
        dsimp only
        cases hf : pyFormInt ff with
        | none => rfl
        | some fid =>
            dsimp only
            cases hd : pyFormInt fd with
            | none => rfl
            | some dia =>
                dsimp only
                by_cases htv : pyStrip (pyOrStr ft "") = "EXPEDIENTE" ∨
                    pyStrip (pyOrStr ft "") = "FOLGA" ∨
                    pyStrip (pyOrStr ft "") = "PLANTAO_24H"
                · rw [if_pos htv, if_pos htv]
                  by_cases hval : dateValid escala.ano.toNat escala.mes.toNat dia = true
                  · rw [if_pos hval, if_pos hval]
                    cases hu : updateFirst
                        (inDay escala.id fid
                          (mkDT ⟨escala.ano.toNat, escala.mes.toNat, dia.toNat⟩ 0 0)
                          (mkDT ⟨escala.ano.toNat, escala.mes.toNat, dia.toNat⟩ 0 0 + 1440))
                        (setCanonicalWindow ⟨escala.ano.toNat, escala.mes.toNat, dia.toNat⟩
                          (pyStrip (pyOrStr ft ""))) st.itens with
                    | some itens2 => rfl
                    | none => rfl
                  · rw [if_neg hval, if_neg hval]
                · rw [if_neg htv, if_neg htv]

/-- Witness for the amended C8: a lookup of the nonexistent schedule month
5 answers not-found without mutation. -/
theorem C8_referential_corrected_witness :
    admin_escala_editar_dia ⟨[], [⟨1, 2026, 3, none, none⟩], [], 2⟩ 5
        (some "7") (some "10") (some "FOLGA")
      = (⟨[], [⟨1, 2026, 3, none, none⟩], [], 2⟩, .notFound) :=
  (C8_referential_corrected ⟨[], [⟨1, 2026, 3, none, none⟩], [], 2⟩ 5
      (some "7") (some "10") (some "FOLGA")).1 (by decide)

end Escala
